import Mathlib

set_option maxHeartbeats 1000000

/- Verification of the execution sandbox and iteration controller of the
AI-Software-House repository.  Python code is shallowly embedded: the opaque
interpreter step (exec on a code string) is abstracted as an `ExecBehavior`
value describing what running that string does, and the repository's own
functions (CodeExecutor.execute, CodeExecutor.clean_code, the agents' process
methods, Router.route, Settings.validate, the workflow loop) are translated
into Lean definitions below. -/

/-- Abstraction of a Python error value: the class name (type(e).__name__ in
the source), the message (str(e)), and whether the class derives from
Exception — as opposed to deriving only from BaseException, as SystemExit and
KeyboardInterrupt do, which an `except Exception` clause does not catch. -/
structure PyError where
  className : String
  message : String
  isException : Bool
deriving DecidableEq, Repr

/-- Behaviour of running one Python code string with exec: either it
terminates normally having written `out` to stdout, or it raises error `e`
after having written `outBefore`.  This abstracts the Python interpreter,
which is outside the repository; the repository's own code is modelled
exactly. -/
inductive ExecBehavior where
  | ok (out : String)
  | raises (outBefore : String) (e : PyError)
deriving DecidableEq, Repr

/-- What sys.stdout refers to: the host process's original stream, or the
private io.StringIO capture buffer the sandbox installs. -/
inductive StdoutTarget where
  | host
  | captureBuffer
deriving DecidableEq, Repr

/-- Embedding of the ExecutionResult dataclass of src/utils/code_executor.py.
The contents of the Python namespace dict are not modelled; only whether the
`namespace` field is populated (some) or None (none) is kept. -/
structure ExecutionResult where
  success : Bool
  output : String
  error : Option String
  exec_namespace : Option Unit
deriving DecidableEq, Repr

namespace CodeExecutor

/-- Embedding of CodeExecutor.execute (src/utils/code_executor.py, lines
39–97).  The argument `b` is the behaviour of the code string being executed
and `stdout0` is what sys.stdout holds on entry (saved by the source into
old_stdout).  The source saves old_stdout, installs a StringIO buffer, runs
exec inside `try ... except Exception`, and restores sys.stdout separately in
the success path and in the except path; there is no finally block.  Hence:
on normal completion it returns success with the captured output and restores
stdout; on an error in the Exception hierarchy it returns failure with
output left at its initialiser "" and error = class name ++ ": " ++ message,
restoring stdout; on an error outside the Exception hierarchy the error
propagates out of execute and sys.stdout is left pointing at the buffer. -/
def execute (b : ExecBehavior) (stdout0 : StdoutTarget) :
    Except PyError ExecutionResult × StdoutTarget :=
  match b with
  | ExecBehavior.ok out =>
      (Except.ok { success := true, output := out, error := none,
                   exec_namespace := some () }, stdout0)
  | ExecBehavior.raises _ e =>
      if e.isException then
        (Except.ok { success := false, output := "",
                     error := some (e.className ++ ": " ++ e.message),
                     exec_namespace := none }, stdout0)
      else
        (Except.error e, StdoutTarget.captureBuffer)

end CodeExecutor

/-- Side condition: the behaviour's error, if any, lies in the Exception
hierarchy, i.e. it is of a kind the source's `except Exception` clause
catches. -/
def handledBehavior (b : ExecBehavior) : Bool :=
  match b with
  | ExecBehavior.ok _ => true
  | ExecBehavior.raises _ e => e.isException

/-- The ASCII whitespace characters Python's str.strip removes. -/
def isPySpace (c : Char) : Bool :=
  c == ' ' || c == '\t' || c == '\n' || c == '\r' || c == '\x0b' || c == '\x0c'

/-- Left half of Python str.strip. -/
def stripLeft (s : List Char) : List Char := s.dropWhile isPySpace

/-- Right half of Python str.strip. -/
def stripRight (s : List Char) : List Char := (s.reverse.dropWhile isPySpace).reverse

/-- Python str.strip: removes whitespace at both ends. -/
def pyStrip (s : List Char) : List Char := stripRight (stripLeft s)

/-- The fence token. -/
def tripleBacktick : List Char := "```".data

/-- The fence token followed by the python language tag. -/
def pythonFenceTag : List Char := "```python".data

namespace CodeExecutor

/-- Embedding of CodeExecutor.clean_code (src/utils/code_executor.py, lines
99–121); Python str is modelled as List Char.  The source strips the text,
then: if it starts with the fence-plus-python-tag token it removes that
prefix (code.split(tag, 1)[1] under the startswith guard is exactly the text
after the 9-character prefix); otherwise if it starts with a bare fence it
removes that 3-character prefix; then if it ends with a fence it removes that
3-character suffix (code.rsplit(fence, 1)[0] under the endswith guard is
exactly the text before the last 3 characters); finally it strips again. -/
def clean_code (code : List Char) : List Char :=
  let c1 := pyStrip code
  let c2 :=
    if pythonFenceTag.isPrefixOf c1 then c1.drop pythonFenceTag.length
    else if tripleBacktick.isPrefixOf c1 then c1.drop tripleBacktick.length
    else c1
  let c3 :=
    if tripleBacktick.isSuffixOf c2 then c2.take (c2.length - tripleBacktick.length)
    else c2
  pyStrip c3

end CodeExecutor

/-- Embedding of the workflow status literal of src/state/agent_state.py. -/
inductive Status where
  | in_progress
  | passed
  | failed
deriving DecidableEq, Repr

/-- Embedding of the AgentState TypedDict of src/state/agent_state.py.
Python integers are modelled as Int. -/
structure AgentState where
  user_request : String
  requirements : String
  code : String
  test_report : String
  iteration : Int
  max_iterations : Int
  status : Status
deriving DecidableEq, Repr

/-- The two route labels Router.route can return; the label written "end" in
the source is endRun here (end is reserved in Lean). -/
inductive Route where
  | developer
  | endRun
deriving DecidableEq, Repr

/-- Embedding of Router.route (src/agents/router.py, lines 19–53): returns
the route label together with the state as mutated by the router.  The
source returns "end" when status is passed; otherwise, when iteration has
reached max_iterations it sets status to failed and returns "end"; otherwise
it increments iteration and returns "developer". -/
def Router.route (state : AgentState) : Route × AgentState :=
  if state.status = Status.passed then
    (Route.endRun, state)
  else if state.iteration ≥ state.max_iterations then
    (Route.endRun, { state with status := Status.failed })
  else
    (Route.developer, { state with iteration := state.iteration + 1 })

/-- Embedding of ProductManagerAgent.process (src/agents/product_manager.py,
lines 26–49).  The external text-generation call on the
requirements-elicitation prompt is the collaborator; `response` is the text
it returns.  The source stores the response into requirements and ALSO sets
status to in_progress. -/
def ProductManagerAgent.process (response : String) (state : AgentState) :
    AgentState :=
  { state with requirements := response, status := Status.in_progress }

/-- Embedding of DeveloperAgent.process (src/agents/developer.py, lines
27–57).  The prompt (initial on iteration 1, fix prompt afterwards) is pure
string templating fed to the external collaborator; `response` is the text
the collaborator returns on this pass.  The source stores
CodeExecutor.clean_code(response) into code and changes nothing else. -/
def DeveloperAgent.process (response : String) (state : AgentState) :
    AgentState :=
  { state with code := String.mk (CodeExecutor.clean_code response.data) }

/-- Embedding of QATesterAgent._create_test_report (src/agents/qa_tester.py,
lines 53–82). -/
def QATesterAgent.create_test_report (result : ExecutionResult)
    (requirements : String) : String :=
  if result.success then
    "✅ TEST PASSED\n\nThe code executed successfully without errors.\n\nOutput:\n"
      ++ result.output ++ "\n\nAll requirements have been satisfied."
  else
    "❌ TEST FAILED\n\nError Details:\n" ++ Option.getD result.error "None"
      ++ "\n\nThe code needs to be fixed to address this error.\n\nRequirements to satisfy:\n"
      ++ requirements

/-- Embedding of QATesterAgent.process (src/agents/qa_tester.py, lines
16–51).  `sem` gives the behaviour of executing a given code string.  The
source calls CodeExecutor.execute on the state's code, builds the test
report from the result and the requirements, and sets status to passed when
the execution succeeded and to in_progress when it failed.  When execute
propagates an error outside the Exception hierarchy, process propagates it
too (the error case). -/
def QATesterAgent.process (sem : String → ExecBehavior) (state : AgentState) :
    Except PyError AgentState :=
  match (CodeExecutor.execute (sem state.code) StdoutTarget.host).1 with
  | Except.error e => Except.error e
  | Except.ok result =>
      Except.ok { state with
        test_report := QATesterAgent.create_test_report result state.requirements,
        status := if result.success then Status.passed else Status.in_progress }

/-- Embedding of WorkflowBuilder.create_initial_state
(src/workflow/graph_builder.py, lines 101–119). -/
def create_initial_state (user_request : String) (max_iterations : Int) :
    AgentState :=
  { user_request := user_request, requirements := "", code := "",
    test_report := "", iteration := 1, max_iterations := max_iterations,
    status := Status.in_progress }

/-- One pass of the developer → qa_tester → router cycle wired by
WorkflowBuilder.build (src/workflow/graph_builder.py, lines 56–99): run the
developer on the collaborator response for the current iteration, run the qa
tester, and ask the router for the next edge. -/
def runPass (llm : Int → String) (sem : String → ExecBehavior)
    (state : AgentState) : Except PyError (Route × AgentState) :=
  let s1 := DeveloperAgent.process (llm state.iteration) state
  match QATesterAgent.process sem s1 with
  | Except.error e => Except.error e
  | Except.ok s2 => Except.ok (Router.route s2)

/-- The graph cycle as a recursive function.  `fuel` bounds the number of
generation/validation passes still permitted: each recursive step is exactly
one pass of the cycle, so a run the graph finishes within n passes is
workflowLoop with fuel n. -/
def workflowLoop (llm : Int → String) (sem : String → ExecBehavior) :
    Nat → AgentState → Except PyError AgentState
  | 0, state => Except.ok state
  | fuel + 1, state =>
      match runPass llm sem state with
      | Except.error e => Except.error e
      | Except.ok (Route.endRun, s3) => Except.ok s3
      | Except.ok (Route.developer, s3) => workflowLoop llm sem fuel s3

/-- Embedding of the Settings dataclass of src/config/settings.py.
temperature, a Python float only ever compared with 0.0 and 1.0, is modelled
as a rational number. -/
structure Settings where
  openai_api_key : String
  model_name : String
  temperature : Rat
  max_iterations : Int
  log_level : String
deriving DecidableEq, Repr

/-- Embedding of Settings.validate (src/config/settings.py, lines 57–71):
the error case carries the ValueError message the source raises. -/
def Settings.validate (s : Settings) : Except String Unit :=
  if ¬ (0 ≤ s.temperature ∧ s.temperature ≤ 1) then
    Except.error "Temperature must be between 0.0 and 1.0"
  else if s.max_iterations < 1 then
    Except.error "max_iterations must be at least 1"
  else if s.log_level ∉ ["DEBUG", "INFO", "WARNING", "ERROR", "CRITICAL"] then
    Except.error ("Invalid log level: " ++ s.log_level)
  else
    Except.ok ()

/-- A run-level failure of run_workflow: a configuration error raised by
Settings.validate before anything else runs, or an error propagated out of a
stage (an error outside the Exception hierarchy escaping the sandbox). -/
inductive RunError where
  | config (msg : String)
  | propagated (e : PyError)
deriving DecidableEq, Repr

/-- Embedding of run_workflow (main.py, lines 47–91): validate the settings
first — a ValueError from Settings.validate propagates before the initial
state is built or any stage executes — then create the initial state, run
the product manager stage once, and drive the developer/qa cycle, which
needs at most max_iterations passes. -/
def run_workflow (settings : Settings) (pm_response : String)
    (llm : Int → String) (sem : String → ExecBehavior)
    (user_request : String) : Except RunError AgentState :=
  match Settings.validate settings with
  | Except.error msg => Except.error (RunError.config msg)
  | Except.ok _ =>
      let s0 := create_initial_state user_request settings.max_iterations
      let s1 := ProductManagerAgent.process pm_response s0
      match workflowLoop llm sem settings.max_iterations.toNat s1 with
      | Except.error e => Except.error (RunError.propagated e)
      | Except.ok s2 => Except.ok s2

/-- Fixture: a collaborator that always returns the empty text. -/
def llmEmpty : Int → String := fun _ => ""

/-- Fixture: code semantics under which every artifact raises ValueError. -/
def semFailV : String → ExecBehavior :=
  fun _ => ExecBehavior.raises ""
    { className := "ValueError", message := "x", isException := true }

/-- Fixture: code semantics under which every artifact runs to completion
with empty output. -/
def semOkEmpty : String → ExecBehavior := fun _ => ExecBehavior.ok ""

/-- Fixture: a post-requirements state with iteration 1 and ceiling 1. -/
def sInit1 : AgentState :=
  { user_request := "r", requirements := "q", code := "", test_report := "",
    iteration := 1, max_iterations := 1, status := Status.in_progress }

/-- Fixture: the state the loop produces from sInit1 under semFailV. -/
def sFail1 : AgentState :=
  { sInit1 with
    code := "",
    test_report := QATesterAgent.create_test_report
      { success := false, output := "",
        error := some ("ValueError" ++ ": " ++ "x"),
        exec_namespace := none } "q",
    status := Status.failed }

/-- Fixture: the state the loop produces from sInit1 under semOkEmpty. -/
def sDone1 : AgentState :=
  { sInit1 with
    code := "",
    test_report := QATesterAgent.create_test_report
      { success := true, output := "", error := none,
        exec_namespace := some () } "q",
    status := Status.passed }

/-- Fixture: a mid-run RUNNING state. -/
def routeFix : AgentState :=
  { user_request := "", requirements := "", code := "", test_report := "",
    iteration := 2, max_iterations := 5, status := Status.in_progress }

/-- Fixture: settings whose iteration ceiling is invalid (0 < 1). -/
def badSettings : Settings :=
  { openai_api_key := "k", model_name := "gpt-4o-mini",
    temperature := 7 / 10, max_iterations := 0, log_level := "INFO" }

/-- Claim C1 (counterexample): the claim says that on a runtime error the
returned captured_output equals exactly the text written to stdout before the
failure point.  For a code string that writes "hello" and then raises
ValueError, execute returns output = "", not "hello": the pre-failure output
is discarded. -/
theorem C1_counterexample :
    (CodeExecutor.execute
        (ExecBehavior.raises "hello"
          { className := "ValueError", message := "boom", isException := true })
        StdoutTarget.host).1 =
      Except.ok { success := false, output := "",
                  error := some "ValueError: boom", exec_namespace := none }
    ∧ ("" : String) ≠ "hello" := by
  exact ⟨rfl, by decide⟩

/-- Claim C1 (amended): for every code string whose execution raises an error
in the Exception hierarchy, execute returns succeeded = false, captured
output equal to the EMPTY string (text written before the failure point is
discarded, not returned), and failure detail formed from the error's class
name, a colon-space separator, and its message text. -/
theorem C1_execute_on_exception (pre : String) (e : PyError)
    (stdout0 : StdoutTarget) (h : e.isException = true) :
    CodeExecutor.execute (ExecBehavior.raises pre e) stdout0 =
      (Except.ok { success := false, output := "",
                   error := some (e.className ++ ": " ++ e.message),
                   exec_namespace := none }, stdout0) := by
  simp [CodeExecutor.execute, h]

/-- Witness for C1 at a concrete undefined-name error. -/
theorem C1_witness :
    ({ className := "NameError", message := "name x is not defined",
       isException := true } : PyError).isException = true
    ∧ CodeExecutor.execute
        (ExecBehavior.raises "out"
          { className := "NameError", message := "name x is not defined",
            isException := true })
        StdoutTarget.host =
      (Except.ok { success := false, output := "",
                   error := some ("NameError" ++ ": " ++ "name x is not defined"),
                   exec_namespace := none }, StdoutTarget.host) :=
  ⟨rfl, C1_execute_on_exception "out"
    { className := "NameError", message := "name x is not defined",
      isException := true } StdoutTarget.host rfl⟩

/-- Claim C2 (counterexample): the claim says every error class surfaced by
the execution mechanism is caught inside execute and no error ever escapes.
A SystemExit raised by the executed code derives from BaseException but not
from Exception, so the source's `except Exception` clause does not catch it:
execute propagates the error instead of returning an outcome. -/
theorem C2_counterexample :
    (CodeExecutor.execute
        (ExecBehavior.raises ""
          { className := "SystemExit", message := "0", isException := false })
        StdoutTarget.host).1 =
      Except.error
        { className := "SystemExit", message := "0", isException := false } :=
  rfl

/-- Claim C2 (amended): for every input whose errors, if any, lie in the
Exception hierarchy, execute returns an outcome and never itself raises, and
the outcome's success flag is true exactly when execution completed normally.
Errors outside the Exception hierarchy (SystemExit, KeyboardInterrupt) escape
execute. -/
theorem C2_execute_total_on_exceptions (b : ExecBehavior)
    (stdout0 : StdoutTarget) (h : handledBehavior b = true) :
    ∃ r : ExecutionResult,
      (CodeExecutor.execute b stdout0).1 = Except.ok r ∧
      (r.success = true ↔ ∃ out, b = ExecBehavior.ok out) := by
  cases b with
  | ok out => exact ⟨_, rfl, by simp [CodeExecutor.execute]⟩
  | raises pre e =>
      have he : e.isException = true := h
      refine ⟨{ success := false, output := "",
                error := some (e.className ++ ": " ++ e.message),
                exec_namespace := none }, ?_, ?_⟩
      · simp [CodeExecutor.execute, he]
      · simp

/-- Witness for C2 at a concrete division-by-zero error. -/
theorem C2_witness :
    handledBehavior
      (ExecBehavior.raises "partial"
        { className := "ZeroDivisionError", message := "division by zero",
          isException := true }) = true
    ∧ ∃ r : ExecutionResult,
        (CodeExecutor.execute
          (ExecBehavior.raises "partial"
            { className := "ZeroDivisionError", message := "division by zero",
              isException := true }) StdoutTarget.host).1 = Except.ok r ∧
        (r.success = true ↔ ∃ out,
          ExecBehavior.raises "partial"
            { className := "ZeroDivisionError", message := "division by zero",
              isException := true } = ExecBehavior.ok out) :=
  ⟨rfl, C2_execute_total_on_exceptions _ StdoutTarget.host rfl⟩

/-- Claim C3 (counterexample): the claim says stdout is restored on every
exit path of execute.  On the exit path where the executed code raises an
error outside the Exception hierarchy, execute exits (by propagating the
error) with sys.stdout still pointing at the capture buffer: there is no
finally block, so the restoration in the try body is skipped and the except
clause does not match. -/
theorem C3_counterexample :
    (CodeExecutor.execute
        (ExecBehavior.raises ""
          { className := "SystemExit", message := "exit", isException := false })
        StdoutTarget.host).2 = StdoutTarget.captureBuffer
    ∧ StdoutTarget.captureBuffer ≠ StdoutTarget.host :=
  ⟨rfl, by decide⟩

/-- Claim C3 (amended): on the exit paths where execution completes normally
or raises an error in the Exception hierarchy, execute restores the original
stdout target before returning; on the exit path where an error outside the
Exception hierarchy escapes, stdout is left redirected to the capture
buffer. -/
theorem C3_execute_restores_stdout (b : ExecBehavior)
    (stdout0 : StdoutTarget) (h : handledBehavior b = true) :
    (CodeExecutor.execute b stdout0).2 = stdout0 := by
  cases b with
  | ok out => rfl
  | raises pre e =>
      have he : e.isException = true := h
      simp [CodeExecutor.execute, he]

/-- Witness for C3 at a concrete assertion failure. -/
theorem C3_witness :
    handledBehavior
      (ExecBehavior.raises "step one done"
        { className := "AssertionError", message := "", isException := true })
      = true
    ∧ (CodeExecutor.execute
        (ExecBehavior.raises "step one done"
          { className := "AssertionError", message := "", isException := true })
        StdoutTarget.host).2 = StdoutTarget.host :=
  ⟨rfl, C3_execute_restores_stdout _ StdoutTarget.host rfl⟩

theorem stripLeft_append_of_keep (pre rest : List Char)
    (h1 : pre.dropWhile isPySpace = pre) (h2 : pre.isEmpty = false) :
    stripLeft (pre ++ rest) = pre ++ rest := by
  unfold stripLeft
  rw [List.dropWhile_append, h1, h2]
  simp

theorem stripRight_append_of_keep (init post : List Char)
    (h1 : post.reverse.dropWhile isPySpace = post.reverse)
    (h2 : post.reverse.isEmpty = false) :
    stripRight (init ++ post) = init ++ post := by
  unfold stripRight
  rw [List.reverse_append, List.dropWhile_append, h1, h2]
  simp

theorem stripRight_append_of_space (l : List Char) (b : Char)
    (h : isPySpace b = true) :
    stripRight (l ++ [b]) = stripRight l := by
  unfold stripRight
  rw [List.reverse_append]
  simp [List.dropWhile_cons, h]

theorem pyStrip_eq_self (pre mid post : List Char)
    (hpre1 : pre.dropWhile isPySpace = pre) (hpre2 : pre.isEmpty = false)
    (hpost1 : post.reverse.dropWhile isPySpace = post.reverse)
    (hpost2 : post.reverse.isEmpty = false) :
    pyStrip ((pre ++ mid) ++ post) = (pre ++ mid) ++ post := by
  unfold pyStrip
  have hL : stripLeft ((pre ++ mid) ++ post) = (pre ++ mid) ++ post := by
    rw [List.append_assoc]
    rw [stripLeft_append_of_keep pre (mid ++ post) hpre1 hpre2]
  rw [hL]
  exact stripRight_append_of_keep (pre ++ mid) post hpost1 hpost2

theorem pyStrip_cons_of_space (a : Char) (l : List Char)
    (h : isPySpace a = true) :
    pyStrip (a :: l) = pyStrip l := by
  unfold pyStrip stripLeft
  rw [List.dropWhile_cons, h]
  simp

theorem pyStrip_append_of_space (l : List Char) (b : Char)
    (h : isPySpace b = true) :
    pyStrip (l ++ [b]) = pyStrip l := by
  unfold pyStrip stripLeft
  rw [List.dropWhile_append]
  split
  · rename_i he
    have h0 : l.dropWhile isPySpace = [] := List.isEmpty_iff.mp he
    rw [h0]
    simp [List.dropWhile_cons, h]
  · exact stripRight_append_of_space _ b h

theorem clean_code_python_fenced (body : List Char) :
    CodeExecutor.clean_code
        ((pythonFenceTag ++ (('\n' :: body) ++ ['\n'])) ++ tripleBacktick)
      = pyStrip body := by
  have hstrip := pyStrip_eq_self pythonFenceTag (('\n' :: body) ++ ['\n'])
    tripleBacktick (by decide) (by decide) (by decide) (by decide)
  have hpref : pythonFenceTag.isPrefixOf
      ((pythonFenceTag ++ (('\n' :: body) ++ ['\n'])) ++ tripleBacktick) = true := by
    rw [List.append_assoc]
    simp
  have hdrop : ((pythonFenceTag ++ (('\n' :: body) ++ ['\n'])) ++
        tripleBacktick).drop pythonFenceTag.length
      = (('\n' :: body) ++ ['\n']) ++ tripleBacktick := by
    rw [List.append_assoc]
    exact List.drop_left _ _
  have hsuf : tripleBacktick.isSuffixOf
      ((('\n' :: body) ++ ['\n']) ++ tripleBacktick) = true := by
    rw [List.isSuffixOf_iff_suffix]
    exact List.suffix_append _ _
  have h3 : tripleBacktick.length = 3 := by decide
  have htake : ((('\n' :: body) ++ ['\n']) ++ tripleBacktick).take
      (((('\n' :: body) ++ ['\n']) ++ tripleBacktick).length - tripleBacktick.length)
      = ('\n' :: body) ++ ['\n'] := by
    apply List.take_left'
    simp [h3]
  have hfin : pyStrip (('\n' :: body) ++ ['\n']) = pyStrip body := by
    rw [pyStrip_append_of_space _ _ (by decide),
        pyStrip_cons_of_space _ _ (by decide)]
  simp only [CodeExecutor.clean_code]
  rw [hstrip, hpref]
  simp only [if_true]
  rw [hdrop, hsuf]
  simp only [if_true]
  rw [htake, hfin]

theorem clean_code_plain_fenced (body : List Char) :
    CodeExecutor.clean_code
        ((tripleBacktick ++ (('\n' :: body) ++ ['\n'])) ++ tripleBacktick)
      = pyStrip body := by
  have hstrip := pyStrip_eq_self tripleBacktick (('\n' :: body) ++ ['\n'])
    tripleBacktick (by decide) (by decide) (by decide) (by decide)
  have hPT : pythonFenceTag = tripleBacktick ++ "python".data := by decide
  have hnp : pythonFenceTag.isPrefixOf
      ((tripleBacktick ++ (('\n' :: body) ++ ['\n'])) ++ tripleBacktick) = false := by
    rw [List.append_assoc]
    apply Bool.eq_false_iff.mpr
    intro hc
    rw [List.isPrefixOf_iff_prefix, hPT, List.prefix_append_right_inj] at hc
    have hm : ('\n' :: body) ++ ['\n'] ++ tripleBacktick
        = '\n' :: ((body ++ ['\n']) ++ tripleBacktick) := by simp
    have hpy : "python".data = 'p' :: "ython".data := by decide
    rw [hm, hpy, List.cons_prefix_cons] at hc
    exact absurd hc.1 (by decide)
  have hbp : tripleBacktick.isPrefixOf
      ((tripleBacktick ++ (('\n' :: body) ++ ['\n'])) ++ tripleBacktick) = true := by
    rw [List.append_assoc]
    simp
  have hdrop : ((tripleBacktick ++ (('\n' :: body) ++ ['\n'])) ++
        tripleBacktick).drop tripleBacktick.length
      = (('\n' :: body) ++ ['\n']) ++ tripleBacktick := by
    rw [List.append_assoc]
    exact List.drop_left _ _
  have hsuf : tripleBacktick.isSuffixOf
      ((('\n' :: body) ++ ['\n']) ++ tripleBacktick) = true := by
    rw [List.isSuffixOf_iff_suffix]
    exact List.suffix_append _ _
  have h3 : tripleBacktick.length = 3 := by decide
  have htake : ((('\n' :: body) ++ ['\n']) ++ tripleBacktick).take
      (((('\n' :: body) ++ ['\n']) ++ tripleBacktick).length - tripleBacktick.length)
      = ('\n' :: body) ++ ['\n'] := by
    apply List.take_left'
    simp [h3]
  have hfin : pyStrip (('\n' :: body) ++ ['\n']) = pyStrip body := by
    rw [pyStrip_append_of_space _ _ (by decide),
        pyStrip_cons_of_space _ _ (by decide)]
  simp only [CodeExecutor.clean_code]
  rw [hstrip, hnp]
  simp only [Bool.false_eq_true, if_false]
  rw [hbp]
  simp only [if_true]
  rw [hdrop, hsuf]
  simp only [if_true]
  rw [htake, hfin]

/-- Claim C4 (amended): for generator output wrapped in a leading
triple-backtick fence with the python language tag — or with no tag — and a
trailing fence, clean_code removes both fence layers and the python tag and
trims surrounding whitespace, returning exactly the trimmed body; a language
tag other than python is NOT removed and remains at the head of the stored
artifact. -/
theorem C4_clean_code_fences (body : List Char) :
    CodeExecutor.clean_code
        ((pythonFenceTag ++ (('\n' :: body) ++ ['\n'])) ++ tripleBacktick)
      = pyStrip body
    ∧ CodeExecutor.clean_code
        ((tripleBacktick ++ (('\n' :: body) ++ ['\n'])) ++ tripleBacktick)
      = pyStrip body :=
  ⟨clean_code_python_fenced body, clean_code_plain_fenced body⟩

/-- Claim C4 (counterexample): for generator output wrapped in
triple-backtick fences with language tag js, clean_code removes the fence
markers but not the tag: the stored artifact keeps the residue js at its
head instead of being the bare body. -/
theorem C4_counterexample :
    CodeExecutor.clean_code ("```js\nx = 1\n```".data) = "js\nx = 1".data
    ∧ "js\nx = 1".data ≠ "x = 1".data := by
  constructor
  · decide
  · decide

theorem runPass_ok (llm : Int → String) (sem : String → ExecBehavior)
    (s : AgentState) (out : String)
    (hb : sem (String.mk (CodeExecutor.clean_code (llm s.iteration).data))
      = ExecBehavior.ok out) :
    runPass llm sem s = Except.ok (Route.endRun,
      { s with
        code := String.mk (CodeExecutor.clean_code (llm s.iteration).data),
        test_report := QATesterAgent.create_test_report
          { success := true, output := out, error := none,
            exec_namespace := some () } s.requirements,
        status := Status.passed }) := by
  simp [runPass, QATesterAgent.process, DeveloperAgent.process,
    CodeExecutor.execute, hb, Router.route]

theorem runPass_raises_atLimit (llm : Int → String) (sem : String → ExecBehavior)
    (s : AgentState) (pre : String) (e : PyError)
    (hex : e.isException = true)
    (hge : s.iteration ≥ s.max_iterations)
    (hb : sem (String.mk (CodeExecutor.clean_code (llm s.iteration).data))
      = ExecBehavior.raises pre e) :
    runPass llm sem s = Except.ok (Route.endRun,
      { s with
        code := String.mk (CodeExecutor.clean_code (llm s.iteration).data),
        test_report := QATesterAgent.create_test_report
          { success := false, output := "",
            error := some (e.className ++ ": " ++ e.message),
            exec_namespace := none } s.requirements,
        status := Status.failed }) := by
  simp [runPass, QATesterAgent.process, DeveloperAgent.process,
    CodeExecutor.execute, hb, hex, Router.route, hge]

theorem runPass_raises_continue (llm : Int → String) (sem : String → ExecBehavior)
    (s : AgentState) (pre : String) (e : PyError)
    (hex : e.isException = true)
    (hlt : s.iteration < s.max_iterations)
    (hb : sem (String.mk (CodeExecutor.clean_code (llm s.iteration).data))
      = ExecBehavior.raises pre e) :
    runPass llm sem s = Except.ok (Route.developer,
      { s with
        code := String.mk (CodeExecutor.clean_code (llm s.iteration).data),
        test_report := QATesterAgent.create_test_report
          { success := false, output := "",
            error := some (e.className ++ ": " ++ e.message),
            exec_namespace := none } s.requirements,
        status := Status.in_progress,
        iteration := s.iteration + 1 }) := by
  simp [runPass, QATesterAgent.process, DeveloperAgent.process,
    CodeExecutor.execute, hb, hex, Router.route, not_le.mpr hlt]

theorem runPass_unhandled (llm : Int → String) (sem : String → ExecBehavior)
    (s : AgentState) (pre : String) (e : PyError)
    (hex : e.isException = false)
    (hb : sem (String.mk (CodeExecutor.clean_code (llm s.iteration).data))
      = ExecBehavior.raises pre e) :
    runPass llm sem s = Except.error e := by
  simp [runPass, QATesterAgent.process, DeveloperAgent.process,
    CodeExecutor.execute, hb, hex]

theorem workflowLoop_failed_inv (llm : Int → String) (sem : String → ExecBehavior) :
    ∀ (fuel : Nat) (s s' : AgentState),
      s.status = Status.in_progress →
      s.iteration ≤ s.max_iterations →
      workflowLoop llm sem fuel s = Except.ok s' →
      s'.status = Status.failed →
      s'.iteration = s'.max_iterations ∧
        ∃ pre e, sem s'.code = ExecBehavior.raises pre e := by
  intro fuel
  induction fuel with
  | zero =>
      intro s s' hst hle hrun hf
      simp only [workflowLoop] at hrun
      cases hrun
      rw [hst] at hf
      exact absurd hf (by decide)
  | succ n ih =>
      intro s s' hst hle hrun hf
      simp only [workflowLoop] at hrun
      cases hb : sem (String.mk (CodeExecutor.clean_code (llm s.iteration).data)) with
      | ok out =>
          rw [runPass_ok llm sem s out hb] at hrun
          simp only [Except.ok.injEq] at hrun
          rw [← hrun] at hf
          simp at hf
      | raises pre e =>
          by_cases hex : e.isException = true
          · by_cases hge : s.iteration ≥ s.max_iterations
            · rw [runPass_raises_atLimit llm sem s pre e hex hge hb] at hrun
              simp only [Except.ok.injEq] at hrun
              subst hrun
              refine ⟨?_, pre, e, ?_⟩
              · simp only []
                omega
              · simpa using hb
            · have hlt : s.iteration < s.max_iterations := not_le.mp hge
              rw [runPass_raises_continue llm sem s pre e hex hlt hb] at hrun
              exact ih _ s' rfl (by simp only []; omega) hrun hf
          · have hex' : e.isException = false := by
              simpa using hex
            rw [runPass_unhandled llm sem s pre e hex' hb] at hrun
            exact absurd hrun (by simp)

/-- Claim C5: whenever a run from a RUNNING state within its ceiling ends
with phase EXHAUSTED (status failed), the final iteration counter equals
iteration_limit and the most recent validation attempt reported failure (the
execution of the final artifact raises); and — the tie-break — on any pass
whose state is RUNNING with iteration equal to iteration_limit and a failing
validation, the router ends the run as EXHAUSTED, setting status to failed,
rather than continuing. -/
theorem C5_exhausted_means_limit (llm : Int → String)
    (sem : String → ExecBehavior) (fuel : Nat) (s s' : AgentState)
    (hst : s.status = Status.in_progress)
    (hle : s.iteration ≤ s.max_iterations)
    (hrun : workflowLoop llm sem fuel s = Except.ok s')
    (hf : s'.status = Status.failed) :
    (s'.iteration = s'.max_iterations
      ∧ ∃ pre e, sem s'.code = ExecBehavior.raises pre e)
    ∧ ∀ t : AgentState, t.status = Status.in_progress →
        t.iteration = t.max_iterations →
        Router.route t = (Route.endRun, { t with status := Status.failed }) := by
  constructor
  · exact workflowLoop_failed_inv llm sem fuel s s' hst hle hrun hf
  · intro t ht1 ht2
    simp [Router.route, ht1, ht2]

/-- Witness for C5: a run with ceiling 1 and always-raising code ends failed
with iteration 1 = iteration_limit. -/
theorem C5_witness :
    sInit1.status = Status.in_progress
    ∧ sInit1.iteration ≤ sInit1.max_iterations
    ∧ workflowLoop llmEmpty semFailV 1 sInit1 = Except.ok sFail1
    ∧ sFail1.status = Status.failed
    ∧ sFail1.iteration = sFail1.max_iterations
    ∧ ∃ pre e, semFailV sFail1.code = ExecBehavior.raises pre e :=
  ⟨rfl, by decide, rfl, rfl,
    (C5_exhausted_means_limit llmEmpty semFailV 1 sInit1 sFail1 rfl (by decide)
      rfl rfl).1.1,
    (C5_exhausted_means_limit llmEmpty semFailV 1 sInit1 sFail1 rfl (by decide)
      rfl rfl).1.2⟩

theorem workflowLoop_bounds (llm : Int → String) (sem : String → ExecBehavior) :
    ∀ (fuel : Nat) (s s' : AgentState),
      s.status = Status.in_progress →
      s.iteration ≤ s.max_iterations →
      workflowLoop llm sem fuel s = Except.ok s' →
      s.iteration ≤ s'.iteration ∧ s'.iteration ≤ s.max_iterations := by
  intro fuel
  induction fuel with
  | zero =>
      intro s s' hst hle hrun
      simp only [workflowLoop] at hrun
      cases hrun
      exact ⟨le_rfl, hle⟩
  | succ n ih =>
      intro s s' hst hle hrun
      simp only [workflowLoop] at hrun
      cases hb : sem (String.mk (CodeExecutor.clean_code (llm s.iteration).data)) with
      | ok out =>
          rw [runPass_ok llm sem s out hb] at hrun
          simp only [Except.ok.injEq] at hrun
          rw [← hrun]
          exact ⟨le_rfl, hle⟩
      | raises pre e =>
          by_cases hex : e.isException = true
          · by_cases hge : s.iteration ≥ s.max_iterations
            · rw [runPass_raises_atLimit llm sem s pre e hex hge hb] at hrun
              simp only [Except.ok.injEq] at hrun
              rw [← hrun]
              exact ⟨le_rfl, hle⟩
            · have hlt : s.iteration < s.max_iterations := not_le.mp hge
              rw [runPass_raises_continue llm sem s pre e hex hlt hb] at hrun
              have hres := ih _ s' rfl (by simp only []; omega) hrun
              have h1 : s.iteration + 1 ≤ s'.iteration := hres.1
              have h2 : s'.iteration ≤ s.max_iterations := hres.2
              exact ⟨by omega, h2⟩
          · have hex' : e.isException = false := by simpa using hex
            rw [runPass_unhandled llm sem s pre e hex' hb] at hrun
            exact absurd hrun (by simp)

/-- Claim C6: between consecutive RUNNING passes the router increments the
iteration counter by exactly 1; the router never decreases it; the
generation and validation stages never change it (nor the ceiling); routing
a state within its ceiling yields a state within its ceiling; and every run
of the loop from a RUNNING state within its ceiling ends with a final
iteration at least the starting one and at most iteration_limit — so across
a full run from the initial state (iteration 1) the counter is monotonically
non-decreasing, steps by exactly 1 between RUNNING passes, and never
exceeds iteration_limit in any reachable state. -/
theorem C6_iteration_monotone :
    (∀ t t' : AgentState, Router.route t = (Route.developer, t') →
      t'.iteration = t.iteration + 1)
    ∧ (∀ (t t' : AgentState) (r : Route), Router.route t = (r, t') →
      t.iteration ≤ t'.iteration)
    ∧ (∀ (resp : String) (t : AgentState),
      (DeveloperAgent.process resp t).iteration = t.iteration
        ∧ (DeveloperAgent.process resp t).max_iterations = t.max_iterations)
    ∧ (∀ (sem : String → ExecBehavior) (t t' : AgentState),
      QATesterAgent.process sem t = Except.ok t' →
      t'.iteration = t.iteration ∧ t'.max_iterations = t.max_iterations)
    ∧ (∀ (t t' : AgentState) (r : Route), t.iteration ≤ t.max_iterations →
      Router.route t = (r, t') → t'.iteration ≤ t'.max_iterations)
    ∧ (∀ (llm : Int → String) (sem : String → ExecBehavior) (fuel : Nat)
        (s s' : AgentState), s.status = Status.in_progress →
      s.iteration ≤ s.max_iterations →
      workflowLoop llm sem fuel s = Except.ok s' →
      s.iteration ≤ s'.iteration ∧ s'.iteration ≤ s.max_iterations) := by
  refine ⟨?_, ?_, ?_, ?_, ?_, ?_⟩
  · intro t t' h
    unfold Router.route at h
    split_ifs at h with h1 h2
    · simp at h
    · simp at h
    · simp only [Prod.mk.injEq] at h
      rw [← h.2]
  · intro t t' r h
    unfold Router.route at h
    split_ifs at h with h1 h2
    · simp only [Prod.mk.injEq] at h
      rw [← h.2]
    · simp only [Prod.mk.injEq] at h
      rw [← h.2]
    · simp only [Prod.mk.injEq] at h
      rw [← h.2]
      show t.iteration ≤ t.iteration + 1
      omega
  · intro resp t
    exact ⟨rfl, rfl⟩
  · intro sem t t' h
    unfold QATesterAgent.process at h
    cases hb : (CodeExecutor.execute (sem t.code) StdoutTarget.host).1 with
    | error e =>
        rw [hb] at h
        simp at h
    | ok result =>
        rw [hb] at h
        simp only [Except.ok.injEq] at h
        rw [← h]
        exact ⟨rfl, rfl⟩
  · intro t t' r hle h
    unfold Router.route at h
    split_ifs at h with h1 h2
    · simp only [Prod.mk.injEq] at h
      rw [← h.2]
      exact hle
    · simp only [Prod.mk.injEq] at h
      rw [← h.2]
      exact hle
    · simp only [Prod.mk.injEq] at h
      rw [← h.2]
      show t.iteration + 1 ≤ t.max_iterations
      omega
  · intro llm sem fuel s s' hst hle hrun
    exact workflowLoop_bounds llm sem fuel s s' hst hle hrun

/-- Witness for C6: the router sends a concrete mid-run state (iteration 2,
ceiling 5) back to the developer with iteration 3, and a concrete completed
run keeps the counter within its bounds. -/
theorem C6_witness :
    ({ routeFix with iteration := routeFix.iteration + 1 } : AgentState).iteration
      = routeFix.iteration + 1
    ∧ sInit1.iteration ≤ sDone1.iteration
    ∧ sDone1.iteration ≤ sInit1.max_iterations :=
  ⟨C6_iteration_monotone.1 routeFix
      { routeFix with iteration := routeFix.iteration + 1 } (by decide),
    (C6_iteration_monotone.2.2.2.2.2 llmEmpty semOkEmpty 1 sInit1 sDone1 rfl
      (by decide) rfl).1,
    (C6_iteration_monotone.2.2.2.2.2 llmEmpty semOkEmpty 1 sInit1 sDone1 rfl
      (by decide) rfl).2⟩

theorem workflowLoop_terminates (llm : Int → String)
    (sem : String → ExecBehavior)
    (hsem : ∀ c, handledBehavior (sem c) = true) :
    ∀ (fuel : Nat) (s : AgentState),
      s.status = Status.in_progress →
      s.iteration ≤ s.max_iterations →
      s.max_iterations < s.iteration + (fuel : Int) →
      ∃ s', workflowLoop llm sem fuel s = Except.ok s'
        ∧ (s'.status = Status.passed ∨ s'.status = Status.failed) := by
  intro fuel
  induction fuel with
  | zero =>
      intro s hst hle hfuel
      exfalso
      simp at hfuel
      omega
  | succ n ih =>
      intro s hst hle hfuel
      cases hb : sem (String.mk (CodeExecutor.clean_code (llm s.iteration).data)) with
      | ok out =>
          refine ⟨{ s with
              code := String.mk (CodeExecutor.clean_code (llm s.iteration).data),
              test_report := QATesterAgent.create_test_report
                { success := true, output := out, error := none,
                  exec_namespace := some () } s.requirements,
              status := Status.passed }, ?_, Or.inl rfl⟩
          simp only [workflowLoop]
          rw [runPass_ok llm sem s out hb]
      | raises pre e =>
          have hex : e.isException = true := by
            have hh := hsem (String.mk (CodeExecutor.clean_code (llm s.iteration).data))
            rw [hb] at hh
            exact hh
          by_cases hge : s.iteration ≥ s.max_iterations
          · refine ⟨{ s with
                code := String.mk (CodeExecutor.clean_code (llm s.iteration).data),
                test_report := QATesterAgent.create_test_report
                  { success := false, output := "",
                    error := some (e.className ++ ": " ++ e.message),
                    exec_namespace := none } s.requirements,
                status := Status.failed }, ?_, Or.inr rfl⟩
            simp only [workflowLoop]
            rw [runPass_raises_atLimit llm sem s pre e hex hge hb]
          · have hlt : s.iteration < s.max_iterations := not_le.mp hge
            have hstep : workflowLoop llm sem (n + 1) s
                = workflowLoop llm sem n { s with
                    code := String.mk (CodeExecutor.clean_code (llm s.iteration).data),
                    test_report := QATesterAgent.create_test_report
                      { success := false, output := "",
                        error := some (e.className ++ ": " ++ e.message),
                        exec_namespace := none } s.requirements,
                    status := Status.in_progress,
                    iteration := s.iteration + 1 } := by
              simp only [workflowLoop]
              rw [runPass_raises_continue llm sem s pre e hex hlt hb]
            rw [hstep]
            apply ih
            · rfl
            · show s.iteration + 1 ≤ s.max_iterations
              omega
            · show s.max_iterations < s.iteration + 1 + (n : Int)
              have hc : (((n : Nat) + 1 : Nat) : Int) = (n : Int) + 1 := by
                push_cast
                ring
              rw [hc] at hfuel
              omega

/-- Claim C7: for every iteration_limit at least 1 and every behaviour of
the collaborator and of the generated artifacts whose errors stay inside the
Exception hierarchy (that is, for every sequence of validation outcomes),
the loop started from the initial state (after the one-time requirements
stage) reaches a terminal phase — SUCCEEDED (passed) or EXHAUSTED (failed)
— within at most iteration_limit generation/validation passes: running it
with pass budget (fuel) equal to iteration_limit already produces the
terminal state, so it never loops indefinitely. -/
theorem C7_termination (llm : Int → String) (sem : String → ExecBehavior)
    (hsem : ∀ c, handledBehavior (sem c) = true)
    (limit : Int) (hlim : 1 ≤ limit) (req pm : String) :
    ∃ s', workflowLoop llm sem limit.toNat
        (ProductManagerAgent.process pm (create_initial_state req limit))
      = Except.ok s'
      ∧ (s'.status = Status.passed ∨ s'.status = Status.failed) := by
  apply workflowLoop_terminates llm sem hsem
  · rfl
  · show (1 : Int) ≤ limit
    exact hlim
  · show limit < 1 + (limit.toNat : Int)
    omega

/-- Witness for C7: a concrete run with ceiling 2 and always-succeeding
artifacts terminates. -/
theorem C7_witness :
    (1 : Int) ≤ 2
    ∧ ∃ s', workflowLoop llmEmpty semOkEmpty (2 : Int).toNat
        (ProductManagerAgent.process "q" (create_initial_state "r" 2))
      = Except.ok s'
      ∧ (s'.status = Status.passed ∨ s'.status = Status.failed) :=
  ⟨by decide,
    C7_termination llmEmpty semOkEmpty (fun c => rfl) 2 (by decide) "r" "q"⟩

/-- Claim C8 (counterexample): the requirements stage does not leave every
other field unchanged: applied to a Run Context whose phase is SUCCEEDED
(status passed), ProductManagerAgent.process overwrites status with
in_progress, so the phase field is written even though the stage only owns
the specification field. -/
theorem C8_counterexample :
    (ProductManagerAgent.process "req"
      { user_request := "r", requirements := "", code := "", test_report := "",
        iteration := 1, max_iterations := 5,
        status := Status.passed }).status = Status.in_progress
    ∧ Status.in_progress ≠ Status.passed :=
  ⟨rfl, by decide⟩

/-- Claim C8 (amended): on every Run Context, ProductManagerAgent.process
writes the specification field (requirements) with the collaborator's
response and ALSO writes the phase field, setting status to in_progress — on
the initial state, where status is already in_progress, the phase value is
therefore unchanged — while the request, artifact, diagnostic, iteration and
iteration_limit fields are left unchanged. -/
theorem C8_pm_frame (response : String) (s : AgentState) :
    (ProductManagerAgent.process response s).requirements = response
    ∧ (ProductManagerAgent.process response s).status = Status.in_progress
    ∧ (ProductManagerAgent.process response s).user_request = s.user_request
    ∧ (ProductManagerAgent.process response s).code = s.code
    ∧ (ProductManagerAgent.process response s).test_report = s.test_report
    ∧ (ProductManagerAgent.process response s).iteration = s.iteration
    ∧ (ProductManagerAgent.process response s).max_iterations = s.max_iterations :=
  ⟨rfl, rfl, rfl, rfl, rfl, rfl, rfl⟩

/-- Claim C9: for every run configured with iteration_limit below 1,
run_workflow surfaces a configuration error to its caller: Settings.validate
raises before the initial state is built and before any stage or loop pass
executes, and the error is neither retried nor converted into a terminal
phase — the caller receives the error itself, not a final state. -/
theorem C9_config_error (settings : Settings) (pm : String)
    (llm : Int → String) (sem : String → ExecBehavior) (req : String)
    (h : settings.max_iterations < 1) :
    ∃ msg, run_workflow settings pm llm sem req
      = Except.error (RunError.config msg) := by
  unfold run_workflow Settings.validate
  by_cases ht : 0 ≤ settings.temperature ∧ settings.temperature ≤ 1
  · refine ⟨"max_iterations must be at least 1", ?_⟩
    simp [ht, h]
  · refine ⟨"Temperature must be between 0.0 and 1.0", ?_⟩
    simp [ht]

/-- Witness for C9 at concrete settings with iteration_limit 0. -/
theorem C9_witness :
    badSettings.max_iterations < 1
    ∧ ∃ msg, run_workflow badSettings "q" llmEmpty semOkEmpty "r"
      = Except.error (RunError.config msg) :=
  ⟨by decide, C9_config_error badSettings "q" llmEmpty semOkEmpty "r" (by decide)⟩

/-- Claim C10: the validation stage reports status passed exactly when
executing the artifact raises no exception: for every artifact semantics
whose errors stay in the Exception hierarchy and every Run Context, the qa
stage returns a state whose status is passed if and only if executing the
artifact completes normally — the captured output's content and the
requirements text play no role in the pass/fail decision, so any artifact
that merely runs to completion (including one producing no output at all) is
judged to satisfy all requirements. -/
theorem C10_qa_pass_iff_no_exception (sem : String → ExecBehavior)
    (s : AgentState) (h : handledBehavior (sem s.code) = true) :
    ∃ s', QATesterAgent.process sem s = Except.ok s'
      ∧ (s'.status = Status.passed ↔ ∃ out, sem s.code = ExecBehavior.ok out) := by
  cases hb : sem s.code with
  | ok out =>
      refine ⟨{ s with
          test_report := QATesterAgent.create_test_report
            { success := true, output := out, error := none,
              exec_namespace := some () } s.requirements,
          status := Status.passed }, ?_, ?_⟩
      · simp [QATesterAgent.process, CodeExecutor.execute, hb]
      · simp [hb]
  | raises pre e =>
      have hex : e.isException = true := by
        rw [hb] at h
        exact h
      refine ⟨{ s with
          test_report := QATesterAgent.create_test_report
            { success := false, output := "",
              error := some (e.className ++ ": " ++ e.message),
              exec_namespace := none } s.requirements,
          status := Status.in_progress }, ?_, ?_⟩
      · simp [QATesterAgent.process, CodeExecutor.execute, hb, hex]
      · simp

/-- Witness for C10: the empty artifact with empty output is judged
passing. -/
theorem C10_witness :
    handledBehavior (semOkEmpty sInit1.code) = true
    ∧ ∃ s', QATesterAgent.process semOkEmpty sInit1 = Except.ok s'
      ∧ (s'.status = Status.passed
          ↔ ∃ out, semOkEmpty sInit1.code = ExecBehavior.ok out) :=
  ⟨rfl, C10_qa_pass_iff_no_exception semOkEmpty sInit1 rfl⟩
